import Mathlib

/-!
Verification development for the realtime-delivery dispatch core.

The definitions below are a shallow embedding of the TypeScript sources:

* `DispatchGateway` (src/websockets/dispatch.gateway.ts): the in-memory
  connection registry (`riderSockets : Map<number, string>` modelled as a
  function `Nat → Option String`, `dispatchSockets : Set<string>` modelled as
  a list in insertion order) together with the socket message handlers.
  A socket emission `server.to(sid).emit(event, data)` is modelled as a
  `WsEmit` value appended to the handler result; handlers that mutate the
  registry return the new state.  The code accepts rider ids as
  `string | number` and normalises strings with `parseInt`; the model works
  with the numeric id directly.
-/

namespace Dispatch

/-- Body of a websocket emission (second argument of `emit`). -/
inductive WsData (α : Type) where
  | newOrder (order : α)
  | riderRef (riderId : Nat)
  | orderAccepted (orderId : Nat) (riderId : Nat)
  | orderRejected (orderId : Nat) (riderId : Nat) (reason : Option String)
  | orderDelivered (orderId : Nat) (riderId : Nat)
  deriving DecidableEq

/-- One `server.to(target).emit(event, data)` call. -/
structure WsEmit (α : Type) where
  target : String
  event : String
  data : WsData α
  deriving DecidableEq

/-- In-memory state of `DispatchGateway`: the rider registry map and the
dispatcher socket set. -/
structure GatewayState where
  riderSockets : Nat → Option String
  dispatchSockets : List String

/-- `broadcastToDispatchers(event, data)`: emit to every socket currently in
the dispatcher set. -/
def broadcastToDispatchers {α : Type} (st : GatewayState) (event : String)
    (data : WsData α) : List (WsEmit α) :=
  st.dispatchSockets.map (fun sid => ⟨sid, event, data⟩)

/-- `handleRegisterRider`: `riderSockets.set(riderId, client.id)` followed by a
`riderConnected` broadcast to the dispatcher set. -/
def handleRegisterRider {α : Type} (st : GatewayState) (riderId : Nat)
    (clientId : String) : GatewayState × List (WsEmit α) :=
  let st' : GatewayState :=
    { st with riderSockets := fun k => if k = riderId then some clientId else st.riderSockets k }
  (st', broadcastToDispatchers st' "riderConnected" (WsData.riderRef riderId))

/-- `handleUnregisterRider`: the mapping is deleted only when the stored socket
id equals the id of the requesting socket; otherwise nothing happens. -/
def handleUnregisterRider {α : Type} (st : GatewayState) (riderId : Nat)
    (clientId : String) : GatewayState × List (WsEmit α) :=
  if st.riderSockets riderId = some clientId then
    ({ st with riderSockets := fun k => if k = riderId then none else st.riderSockets k },
      broadcastToDispatchers st "riderDisconnected" (WsData.riderRef riderId))
  else
    (st, [])

/-- `sendOrderToRider(riderId, order)`: look the rider up in the registry; when
connected, emit `newOrder` with the order payload and return `true`, otherwise
return `false` (the whole body is wrapped in try/catch returning `false`, so
the miss is never raised). -/
def sendOrderToRider {α : Type} (st : GatewayState) (riderId : Nat)
    (order : α) : Bool × List (WsEmit α) :=
  match st.riderSockets riderId with
  | some socketId => (true, [⟨socketId, "newOrder", WsData.newOrder order⟩])
  | none => (false, [])

/-- `handleOrderAccepted`: forward to the dispatcher set only when the sender
socket is the registered connection of the claimed rider. -/
def handleOrderAccepted {α : Type} (st : GatewayState) (orderId riderId : Nat)
    (clientId : String) : List (WsEmit α) :=
  if st.riderSockets riderId = some clientId then
    broadcastToDispatchers st "orderAccepted" (WsData.orderAccepted orderId riderId)
  else
    []

/-- `handleOrderRejected`: same guard as `handleOrderAccepted`. -/
def handleOrderRejected {α : Type} (st : GatewayState) (orderId riderId : Nat)
    (reason : Option String) (clientId : String) : List (WsEmit α) :=
  if st.riderSockets riderId = some clientId then
    broadcastToDispatchers st "orderRejected" (WsData.orderRejected orderId riderId reason)
  else
    []

/-- `handleOrderDelivered`: same guard as `handleOrderAccepted`. -/
def handleOrderDelivered {α : Type} (st : GatewayState) (orderId riderId : Nat)
    (clientId : String) : List (WsEmit α) :=
  if st.riderSockets riderId = some clientId then
    broadcastToDispatchers st "orderDelivered" (WsData.orderDelivered orderId riderId)
  else
    []

end Dispatch

/-!
RabbitMQService (src/rabbitmq/rabbitmq.service.ts): exchange/queue topology,
the publish path, and the consumer retry/dead-letter loop.

* `queues` transcribes the `queues` configuration object (key, queue name,
  assert options, `deadLetter` flag).
* `setupQueuesBindings` transcribes `setupQueues`: a primary queue is bound on
  the topic exchange `delivery_events` with routing key `key.toLowerCase()`;
  a dead-letter queue is bound on the direct exchange `delivery_events_dlx`
  with its own name as routing key.
* None of the binding keys contains a topic wildcard, so topic routing is
  literal equality of routing key and binding key (`routesTo`).
-/

namespace MQ

/-- The subset of `Options.AssertQueue` fields the service sets. -/
structure QueueOptions where
  durable : Bool
  deadLetterExchange : Option String
  deadLetterRoutingKey : Option String
  messageTtl : Option Nat
  deriving DecidableEq

/-- One entry of the `queues` configuration object. -/
structure QueueConfig where
  key : String
  name : String
  options : QueueOptions
  deadLetter : Bool
  deriving DecidableEq

/-- The `queues` object literal, in declaration order. -/
def queues : List QueueConfig := [
  ⟨"orderCreated", "order.created",
    ⟨true, some "delivery_events_dlx", some "order.created.dead", none⟩, false⟩,
  ⟨"orderUpdated", "order.updated",
    ⟨true, some "delivery_events_dlx", some "order.updated.dead", none⟩, false⟩,
  ⟨"orderAssigned", "order.assigned",
    ⟨true, some "delivery_events_dlx", some "order.assigned.dead", none⟩, false⟩,
  ⟨"riderLocation", "rider.location",
    ⟨true, some "delivery_events_dlx", some "rider.location.dead", some 60000⟩, false⟩,
  ⟨"orderCreatedDLQ", "order.created.dead", ⟨true, none, none, none⟩, true⟩,
  ⟨"orderUpdatedDLQ", "order.updated.dead", ⟨true, none, none, none⟩, true⟩,
  ⟨"orderAssignedDLQ", "order.assigned.dead", ⟨true, none, none, none⟩, true⟩,
  ⟨"riderLocationDLQ", "rider.location.dead", ⟨true, none, none, none⟩, true⟩]

/-- `toLowerCase()` as used on the camelCase ASCII keys here: charwise
lowering (extensionally `String.toLower`, stated so that the kernel can
evaluate it). -/
def lowerCase (s : String) : String := String.mk (s.data.map Char.toLower)

/-- A `bindQueue(queue, exchange, routingKey)` call. -/
structure Binding where
  queue : String
  exchange : String
  routingKey : String
  deriving DecidableEq

/-- The binding each iteration of `setupQueues` performs. -/
def setupQueuesBindings : List Binding :=
  queues.map (fun c =>
    if !c.deadLetter then ⟨c.name, "delivery_events", lowerCase c.key⟩
    else ⟨c.name, "delivery_events_dlx", c.name⟩)

/-- `publishMessage` lowercases the wrapper-supplied key
(`routingKey.toLowerCase()`) before publishing. -/
def publishRoutingKey (key : String) : String := lowerCase key

/-- Queues a message published on `exchange` with `routingKey` is routed to.
All binding keys are wildcard-free, so topic and direct matching coincide
with string equality. -/
def routesTo (bindings : List Binding) (exchange routingKey : String) : List String :=
  (bindings.filter (fun b => b.exchange == exchange && b.routingKey == routingKey)).map
    (fun b => b.queue)

/-- Where the broker moves a message rejected (without requeue) on `queueName`:
the queue bound on the configured dead-letter exchange under the configured
dead-letter routing key. -/
def deadLetterTarget (queueName : String) : Option String :=
  match queues.find? (fun c => c.name == queueName) with
  | some c =>
    match c.options.deadLetterExchange, c.options.deadLetterRoutingKey with
    | some dlx, some dlrk => (routesTo setupQueuesBindings dlx dlrk).head?
    | _, _ => none
  | none => none

/-- A delivery as seen by the consumer callback: body, `x-retry-count` header
(0 when the header is absent) and `msg.fields.routingKey`. -/
structure Msg where
  content : String
  retryHeader : Nat
  routingKey : String
  deriving DecidableEq

/-- What `consumeMessages` does with one delivery. -/
inductive ConsumeAction where
  | ackOnly
  | republishThenAck (delayMs : Nat) (exchange routingKey content : String)
      (newRetryCount : Nat)
  | rejectNoRequeue
  deriving DecidableEq

/-- One pass of the consumer callback: on handler success, ack; on handler
throw, increment the retry header; at most 3 retries are re-published to the
same exchange/routing key with delay `2^retryCount * 1000` ms and the original
delivery acked; beyond that the delivery is rejected without requeue. -/
def consumeOne (handlerThrows : Bool) (m : Msg) : ConsumeAction :=
  if handlerThrows then
    let retryCount := m.retryHeader + 1
    if retryCount ≤ 3 then
      ConsumeAction.republishThenAck (2 ^ retryCount * 1000) "delivery_events"
        m.routingKey m.content retryCount
    else
      ConsumeAction.rejectNoRequeue
  else
    ConsumeAction.ackOnly

/-- Observable outcome of delivering one logical message to completion. -/
structure RetryTrace where
  successAcks : Nat
  retryAcks : Nat
  republishDelays : List Nat
  deadLettered : List (String × Msg)
  deriving DecidableEq

/-- Drive one logical message through the consumer loop: the republished copy
(same content, same routing key, incremented header) is redelivered on the same
queue, until the handler succeeds or the delivery is dead-lettered.
`failsOn n` says whether the handler throws on attempt `n` (attempt `n`
carries retry header `n - 1`). -/
def runDeliveries (failsOn : Nat → Bool) (queueName content routingKey : String)
    (header : Nat) : RetryTrace :=
  if failsOn (header + 1) then
    if header + 1 ≤ 3 then
      let rest := runDeliveries failsOn queueName content routingKey (header + 1)
      { rest with
          retryAcks := rest.retryAcks + 1,
          republishDelays := (2 ^ (header + 1) * 1000) :: rest.republishDelays }
    else
      { successAcks := 0, retryAcks := 0, republishDelays := [],
        deadLettered :=
          match deadLetterTarget queueName with
          | some q => [(q, ⟨content, header, routingKey⟩)]
          | none => [] }
  else
    { successAcks := 1, retryAcks := 0, republishDelays := [], deadLettered := [] }
termination_by 4 - header
decreasing_by omega

end MQ

/-!
Numbers crossing the JS boundary.  The services pass JavaScript `number`
values (IEEE doubles) into SQL `float8` parameters.  Finite doubles are
rationals, modelled exactly by `ℚ`; the special values `Infinity`,
`-Infinity` and `NaN` are kept as explicit constructors because
`OrdersService.createOrder` branches on `isNaN` and Postgres raises
`input is out of range` when a trigonometric function is applied to an
infinite `float8`.  Floating-point rounding is not modelled.
-/

inductive JsNum where
  | finite (q : ℚ)
  | posInf
  | negInf
  | nan
  deriving DecidableEq

/-- JavaScript `isNaN` on a `number`. -/
def JsNum.isNaN : JsNum → Bool
  | .nan => true
  | _ => false

/-- Whether the value is one of the two infinities. -/
def JsNum.isInfinite : JsNum → Bool
  | .posInf => true
  | .negInf => true
  | _ => false

/-!
RidersService.findNearbyAvailableRiders (src/riders/riders.service.ts):
the `rider_distances` CTE computes, for every row with `is_available = true`
and non-null coordinates, the spherical-law-of-cosines distance

  6371 * acos( cos(radians(lat)) * cos(radians(current_latitude))
             * cos(radians(current_longitude) - radians(lng))
             + sin(radians(lat)) * sin(radians(current_latitude)) )

and the outer query keeps rows with `distance < radius` ordered by distance
ascending.  Postgres sorts are modelled by a stable insertion sort.
Only the rider columns read by the modelled code paths appear in `RiderRow`.
-/

namespace Geo

/-- A `riders` table row (columns used by the modelled paths). -/
structure RiderRow where
  id : Nat
  is_available : Bool
  current_latitude : Option ℚ
  current_longitude : Option ℚ
  updated_at : Nat
  deriving DecidableEq

/-- SQL `radians(x)`: degrees to radians. -/
noncomputable def radians (x : ℚ) : ℝ := (x : ℝ) * Real.pi / 180

/-- The distance expression of the `rider_distances` CTE, for query point
`(qlat, qlng)` and rider position `(rlat, rlng)`. -/
noncomputable def sphericalDistanceKm (qlat qlng rlat rlng : ℚ) : ℝ :=
  6371 * Real.arccos (Real.cos (radians qlat) * Real.cos (radians rlat) *
    Real.cos (radians rlng - radians qlng) +
    Real.sin (radians qlat) * Real.sin (radians rlat))

/-- The SQL of `findNearbyAvailableRiders` for finite (non-NaN, non-infinite)
query coordinates: filter available riders with known position, pair each with
its distance, keep strict `distance < radiusKm`, order by distance ascending. -/
noncomputable def findNearbyCore (riders : List RiderRow) (lat lng radiusKm : ℚ) :
    List (RiderRow × ℝ) :=
  let riderDistances := riders.filterMap (fun r =>
    match r.is_available, r.current_latitude, r.current_longitude with
    | true, some a, some b => some (r, sphericalDistanceKm lat lng a b)
    | _, _, _ => none)
  List.insertionSort (fun p q => p.2 ≤ q.2)
    (riderDistances.filter (fun p => decide (p.2 < (radiusKm : ℝ))))

/-- Postgres error raised when `cos`/`sin` is applied to an infinite float. -/
inductive SqlError where
  | inputOutOfRange
  deriving DecidableEq

/-- `findNearbyAvailableRiders(lat, lng, radiusKm = 5)` including the JS
boundary: for finite query coordinates it is `findNearbyCore`; an infinite
coordinate makes the distance expression raise `input is out of range` as soon
as one row passes the `WHERE` filter; a NaN coordinate yields a NaN distance
for every row and `NaN < radius` holds for none, so the result is empty. -/
noncomputable def findNearbyAvailableRiders (riders : List RiderRow)
    (lat lng : JsNum) (radiusKm : ℚ := 5) : Except SqlError (List (RiderRow × ℝ)) :=
  let candidates := riders.filter (fun r =>
    r.is_available && r.current_latitude.isSome && r.current_longitude.isSome)
  match lat, lng with
  | .finite a, .finite b => .ok (findNearbyCore riders a b radiusKm)
  | _, _ =>
    if lat.isInfinite || lng.isInfinite then
      if candidates.isEmpty then .ok [] else .error SqlError.inputOutOfRange
    else .ok []

end Geo

/-!
OrdersService (src/orders/orders.service.ts, the variant with `CustomLogger`)
and RidersService.updateLocation, over a relational-store model.

* `DB` is the committed database.  A knex transaction is modelled by
  threading an overlay copy (`trx…`) through the callback; the callback
  result commits the overlay, a thrown error discards it (rollback).
  Crucially, a query issued through `this.db.knex` while a transaction is
  open runs on a different pool connection and therefore sees only the
  committed state — not the uncommitted overlay.  `getOrderById` takes the
  state it reads from; call sites pass the overlay exactly when the source
  passes `trx`.
* Row ids come from per-table `next…Id` counters (the returning-id inserts).
* `text`/`jsonb` columns written via `.toString()` keep the underlying value;
  the rendering is irrelevant to every claim.  Constant columns of the insert
  (`meals: []`, `internal_profit: 0`, `cokitchen…`, `pickup`, `prev_price`)
  and order columns never read by the modelled paths are omitted from the
  rows.  The TS `rider_id` column is `string | null` holding a numeric id,
  modelled as `Option Nat`.
* Broker interaction: `publishMessage` throws when the connection is down
  (`!this.isConnected || !this.channel`, the two flags standing or falling
  together); otherwise `channel.publish` buffers the message — even when it
  returns `false`, in which case `publishMessage` still throws.  Timestamps
  (`Date.now()`, `toISOString`) are an abstract tick `now : Nat`; JSON
  serialisation of a payload is modelled by the payload value itself.
-/

namespace Orders

/-- The `address_details` object of the DTO. -/
structure AddressDetails where
  city : String
  name : String
  address_line : String
  building_number : String
  deriving DecidableEq

/-- A `calculated_orders` row (columns read/written by the modelled paths). -/
structure CalcOrderRow where
  id : Nat
  total_amount : JsNum
  free_delivery : Bool
  delivery_fee : JsNum
  service_charge : JsNum
  amount : JsNum
  lat : JsNum
  lng : JsNum
  address_details : AddressDetails
  user_id : String
  created_at : Nat
  updated_at : Nat
  deriving DecidableEq

/-- An `orders` row (columns read/written by the modelled paths). -/
structure OrderRow where
  id : Nat
  user_id : String
  order_type_id : Nat
  calculated_order_id : Nat
  scheduled : Bool
  order_code : String
  rider_id : Option Nat
  rider_assigned : Bool
  created_at : Nat
  updated_at : Nat
  deriving DecidableEq

/-- A `logs` row. -/
structure LogRow where
  order_id : Nat
  description : String
  time : Nat
  deriving DecidableEq

/-- An `order_total_amount_history` row. -/
structure HistoryRow where
  order_id : Nat
  total_amount : JsNum
  time : Nat
  deriving DecidableEq

/-- An `order_types` row. -/
structure OrderTypeRow where
  id : Nat
  name : String
  deriving DecidableEq

/-- The committed relational store. -/
structure DB where
  calculated_orders : List CalcOrderRow
  orders : List OrderRow
  logs : List LogRow
  order_total_amount_history : List HistoryRow
  order_types : List OrderTypeRow
  riders : List Geo.RiderRow
  nextCalculatedOrderId : Nat
  nextOrderId : Nat
  nextOrderTypeId : Nat
  deriving DecidableEq

/-- Errors surfaced by the services: Nest `NotFoundException`, a plain
JS `Error(message)`, or a database error raised by a raw query. -/
inductive Err where
  | notFoundException (msg : String)
  | jsError (msg : String)
  | sqlError (e : Geo.SqlError)
  deriving DecidableEq

/-- The `calculated_order` sub-object `getOrderById` assembles from the
left-joined columns.  The sub-object itself always exists (so the
`if (!order.calculated_order)` guard in `createOrder` can never fire); its
fields are null exactly when the join found no row. -/
structure CalcJoined where
  total_amount : Option JsNum
  delivery_fee : Option JsNum
  service_charge : Option JsNum
  address_details : Option AddressDetails
  lat : Option JsNum
  lng : Option JsNum
  deriving DecidableEq

/-- The order object returned by `getOrderById`. -/
structure OrderDetails where
  order : OrderRow
  calculated_order : CalcJoined
  order_type_name : Option String
  logs : List LogRow
  order_total_amount_history : List HistoryRow
  deriving DecidableEq

/-- `ORDER BY time ASC` (stable, as in Postgres). -/
def orderByTimeAsc {α : Type} (time : α → Nat) (l : List α) : List α :=
  List.insertionSort (fun a b => time a ≤ time b) l

/-- `getOrderById(orderId, trx)`: `conn` is the connection the source uses —
the open transaction when the caller passes `trx`, otherwise the pool
(committed state). -/
def getOrderById (conn : DB) (orderId : Nat) : Except Err OrderDetails :=
  match conn.orders.find? (fun o => o.id == orderId) with
  | none => .error (.notFoundException ("Order with ID " ++ toString orderId ++ " not found"))
  | some orderData =>
    let calcRow := conn.calculated_orders.find? (fun c => c.id == orderData.calculated_order_id)
    .ok {
      order := orderData,
      calculated_order := {
        total_amount := calcRow.map (fun c => c.total_amount),
        delivery_fee := calcRow.map (fun c => c.delivery_fee),
        service_charge := calcRow.map (fun c => c.service_charge),
        address_details := calcRow.map (fun c => c.address_details),
        lat := calcRow.map (fun c => c.lat),
        lng := calcRow.map (fun c => c.lng) },
      order_type_name :=
        (conn.order_types.find? (fun t => t.id == orderData.order_type_id)).map
          (fun t => t.name),
      logs := orderByTimeAsc (fun l => l.time)
        (conn.logs.filter (fun l => l.order_id == orderId)),
      order_total_amount_history := orderByTimeAsc (fun h => h.time)
        (conn.order_total_amount_history.filter (fun h => h.order_id == orderId)) }

/-- Message bodies handed to `channel.publish` (JSON serialisation modelled
by the value; `timestamp` is the ISO timestamp). -/
inductive Payload where
  | orderCreated (order : OrderDetails) (timestamp : Nat)
  | orderAssigned (order : OrderDetails) (riderId : Nat) (timestamp : Nat)
  | riderLocation (riderId : Nat) (latitude longitude : ℚ) (timestamp : Nat)
  deriving DecidableEq

/-- Broker-facing state: connection flag, `channel.publish` write-buffer
return value, and the messages handed to the channel in order, each tagged
with its (lowercased) routing key. -/
structure Broker where
  isConnected : Bool
  channelWritable : Bool
  published : List (String × Payload)
  deriving DecidableEq

/-- `publishMessage(routingKey, data)`. -/
def publishMessage (bk : Broker) (routingKey : String) (data : Payload) :
    Except String Unit × Broker :=
  if !bk.isConnected then (.error "RabbitMQ connection not available", bk)
  else
    let bk' := { bk with published := bk.published ++ [(MQ.publishRoutingKey routingKey, data)] }
    if bk.channelWritable then (.ok (), bk')
    else (.error "Message could not be published", bk')

/-- `publishOrderCreated(order)`. -/
def publishOrderCreated (bk : Broker) (order : OrderDetails) (now : Nat) :
    Except String Unit × Broker :=
  publishMessage bk "orderCreated" (Payload.orderCreated order now)

/-- `publishOrderAssigned(order)`: rejects before touching the channel when
the (re-read) order has no `rider_id`. -/
def publishOrderAssigned (bk : Broker) (order : OrderDetails) (now : Nat) :
    Except String Unit × Broker :=
  match order.order.rider_id with
  | none => (.error "Cannot publish order assignment: no rider assigned", bk)
  | some riderId => publishMessage bk "orderAssigned" (Payload.orderAssigned order riderId now)

/-- `publishRiderLocation(locationUpdate)`. -/
def publishRiderLocation (bk : Broker) (riderId : Nat) (latitude longitude : ℚ)
    (now : Nat) : Except String Unit × Broker :=
  publishMessage bk "riderLocation" (Payload.riderLocation riderId latitude longitude now)

end Orders

namespace Orders

/-- `CalculatedOrderDetails` of `CreateOrderDto`. -/
structure CalculatedOrderDetails where
  total_amount : JsNum
  delivery_fee : JsNum
  service_charge : JsNum
  address_details : AddressDetails
  lat : JsNum
  lng : JsNum
  free_delivery : Bool
  amount : JsNum
  deriving DecidableEq

/-- `CreateOrderDto`. -/
structure CreateOrderDto where
  user_id : String
  order_type_id : String
  calculated_order : CalculatedOrderDetails
  scheduled : Bool
  deriving DecidableEq

/-- Decimal model of `parseInt(s, 10)` at the call sites appearing here:
the longest leading digit run, `none` for NaN when there is none (sign and
whitespace handling is never exercised by the modelled ids). -/
def parseIntOpt (s : String) : Option Nat :=
  let ds := s.data.takeWhile Char.isDigit
  if ds.isEmpty then none
  else some (ds.foldl (fun n c => n * 10 + (c.toNat - 48)) 0)

/-- `getOrCreateDefaultOrderType(trx, providedTypeId)`: use the provided id
when it parses and exists; otherwise fall back to the `Standard Delivery`
row, inserting it first when missing.  Runs on the open transaction. -/
def getOrCreateDefaultOrderType (trx : DB) (providedTypeId : String) : DB × Nat :=
  let fallback : DB × Nat :=
    match trx.order_types.find? (fun t => t.name == "Standard Delivery") with
    | some defaultType => (trx, defaultType.id)
    | none =>
      let newId := trx.nextOrderTypeId
      ({ trx with
          order_types := trx.order_types ++ [⟨newId, "Standard Delivery"⟩],
          nextOrderTypeId := newId + 1 }, newId)
  match parseIntOpt providedTypeId with
  | some n =>
    match trx.order_types.find? (fun t => t.id == n) with
    | some existingType => (trx, existingType.id)
    | none => fallback
  | none => fallback

/-- The object passed to `dispatchGateway.sendOrderToRider` for one nearby
rider: the broadcast view of the order plus the distance (`.toString()` again
keeps the underlying value). -/
structure NotifyPayload where
  id : Nat
  order_code : String
  total_amount : Option JsNum
  delivery_fee : Option JsNum
  service_charge : Option JsNum
  address_details : Option AddressDetails
  lat : Option JsNum
  lng : Option JsNum
  distance : ℝ

/-- Non-transactional side effects of `createOrder` other than broker
publishes: the nearby-rider query and the per-rider websocket pushes. -/
inductive Effect where
  | searchNearby (lat lng : JsNum)
  | notifyRider (riderId : Nat) (payload : NotifyPayload)

/-- Result of one service call: the settled promise, the committed database
(unchanged when the transaction rolled back), the broker state and the
websocket side effects in order (neither is transactional). -/
structure Outcome (α : Type) where
  result : Except Err α
  db : DB
  broker : Broker
  effects : List Effect

/-- Tail of `createOrder` after the nearby-rider block: re-read the complete
order through the open transaction, publish `order.created`, then return the
new id — committing the overlay on success and rolling it back when the
publish (or the re-read) throws. -/
def finishCreate (db : DB) (bk : Broker) (trx : DB) (newOrderId : Nat) (now : Nat)
    (effects : List Effect) : Outcome Nat :=
  match getOrderById trx newOrderId with
  | .error e => { result := .error e, db := db, broker := bk, effects := effects }
  | .ok createdOrder =>
    match publishOrderCreated bk createdOrder now with
    | (.error m, bk') => { result := .error (.jsError m), db := db, broker := bk', effects := effects }
    | (.ok _, bk') => { result := .ok newOrderId, db := trx, broker := bk', effects := effects }

/-- `createOrder(orderData)`.  Everything below — rows, rider notifications
and the `order.created` publish — happens inside the single knex transaction;
`now` models the clock, `rand` the `Math.random()` draw for the order code.
The nearby-rider query goes through `this.db.knex` (committed state `db`);
both `getOrderById` calls pass `trx` and read the overlay.  The
`if (!order.calculated_order)` guard is dead code (the joined sub-object is
always an object) and has no model counterpart. -/
noncomputable def createOrder (db : DB) (bk : Broker) (orderData : CreateOrderDto)
    (now rand : Nat) : Outcome Nat :=
  let calculatedOrderId := db.nextCalculatedOrderId
  let trx1 : DB := { db with
    calculated_orders := db.calculated_orders ++ [{
      id := calculatedOrderId,
      total_amount := orderData.calculated_order.total_amount,
      free_delivery := orderData.calculated_order.free_delivery,
      delivery_fee := orderData.calculated_order.delivery_fee,
      service_charge := orderData.calculated_order.service_charge,
      amount := orderData.calculated_order.amount,
      lat := orderData.calculated_order.lat,
      lng := orderData.calculated_order.lng,
      address_details := orderData.calculated_order.address_details,
      user_id := orderData.user_id,
      created_at := now, updated_at := now }],
    nextCalculatedOrderId := calculatedOrderId + 1 }
  let orderCode := "OD-" ++ toString now ++ "-" ++ toString (rand % 1000)
  let step2 := getOrCreateDefaultOrderType trx1 orderData.order_type_id
  let trx2 := step2.1
  let validOrderTypeId := step2.2
  let newOrderId := trx2.nextOrderId
  let trx3 : DB := { trx2 with
    orders := trx2.orders ++ [{
      id := newOrderId,
      user_id := orderData.user_id,
      order_type_id := validOrderTypeId,
      calculated_order_id := calculatedOrderId,
      scheduled := orderData.scheduled,
      order_code := orderCode,
      rider_id := none,
      rider_assigned := false,
      created_at := now, updated_at := now }],
    nextOrderId := newOrderId + 1 }
  let trx4 : DB := { trx3 with logs := trx3.logs ++ [⟨newOrderId, "Order received", now⟩] }
  let trx5 : DB := { trx4 with order_total_amount_history :=
    trx4.order_total_amount_history ++
      [⟨newOrderId, orderData.calculated_order.total_amount, now⟩] }
  let lat := orderData.calculated_order.lat
  let lng := orderData.calculated_order.lng
  if !lat.isNaN && !lng.isNaN then
    match Geo.findNearbyAvailableRiders db.riders lat lng with
    | .error e =>
      { result := .error (.sqlError e), db := db, broker := bk,
        effects := [Effect.searchNearby lat lng] }
    | .ok nearbyRiders =>
      match getOrderById trx5 newOrderId with
      | .error e =>
        { result := .error e, db := db, broker := bk,
          effects := [Effect.searchNearby lat lng] }
      | .ok order =>
        let notifications := nearbyRiders.map (fun rd => Effect.notifyRider rd.1.id {
          id := order.order.id,
          order_code := order.order.order_code,
          total_amount := order.calculated_order.total_amount,
          delivery_fee := order.calculated_order.delivery_fee,
          service_charge := order.calculated_order.service_charge,
          address_details := order.calculated_order.address_details,
          lat := order.calculated_order.lat,
          lng := order.calculated_order.lng,
          distance := rd.2 })
        finishCreate db bk trx5 newOrderId now
          (Effect.searchNearby lat lng :: notifications)
  else
    finishCreate db bk trx5 newOrderId now []

/-- `assignRider(orderId, riderId)`.  The guarded update and the log insert
run on the open transaction; the re-read before publishing calls
`getOrderById(orderId)` WITHOUT `trx`, so it runs on the pool connection and
sees only the committed state `db`. -/
def assignRider (db : DB) (bk : Broker) (orderId riderId : Nat) (now : Nat) :
    Outcome OrderDetails :=
  match db.orders.find? (fun o => o.id == orderId) with
  | none =>
    { result := .error (.notFoundException ("Order with ID " ++ toString orderId ++ " not found")),
      db := db, broker := bk, effects := [] }
  | some order =>
    if order.rider_assigned then
      { result := .error (.jsError "Order already has an assigned rider"),
        db := db, broker := bk, effects := [] }
    else
      let trx1 : DB := { db with orders := db.orders.map (fun o =>
        if o.id == orderId then
          { o with rider_id := some riderId, rider_assigned := true, updated_at := now }
        else o) }
      let trx2 : DB := { trx1 with logs := trx1.logs ++
        [⟨orderId, "Rider (ID: " ++ toString riderId ++ ") assigned to order", now⟩] }
      match getOrderById db orderId with
      | .error e => { result := .error e, db := db, broker := bk, effects := [] }
      | .ok updatedOrder =>
        match publishOrderAssigned bk updatedOrder now with
        | (.error m, bk') =>
          { result := .error (.jsError m), db := db, broker := bk', effects := [] }
        | (.ok _, bk') =>
          { result := .ok updatedOrder, db := trx2, broker := bk', effects := [] }

/-- `RidersService.updateLocation(riderId, latitude, longitude)`: a single
transaction that updates the rider position/timestamp (`updated` is the
affected-row count) and publishes `rider.location`; any throw — missing
rider or failed publish — rolls the position update back. -/
def updateLocation (db : DB) (bk : Broker) (riderId : Nat) (latitude longitude : ℚ)
    (now : Nat) : Outcome Unit :=
  let updated := db.riders.countP (fun r => r.id == riderId)
  let trx1 : DB := { db with riders := db.riders.map (fun r =>
    if r.id == riderId then
      { r with current_latitude := some latitude, current_longitude := some longitude,
               updated_at := now }
    else r) }
  if updated == 0 then
    { result := .error (.notFoundException ("Rider with ID " ++ toString riderId ++ " not found")),
      db := db, broker := bk, effects := [] }
  else
    match publishRiderLocation bk riderId latitude longitude now with
    | (.error m, bk') => { result := .error (.jsError m), db := db, broker := bk', effects := [] }
    | (.ok _, bk') => { result := .ok (), db := trx1, broker := bk', effects := [] }

end Orders

namespace Geo

instance : IsTotal (RiderRow × ℝ) (fun p q => p.2 ≤ q.2) :=
  ⟨fun p q => le_total p.2 q.2⟩

instance : IsTrans (RiderRow × ℝ) (fun p q => p.2 ≤ q.2) :=
  ⟨fun _ _ _ h h' => le_trans h h'⟩

end Geo

/-! Theorems.  Each claim of the specification is settled by exactly one
theorem below (with a closed witness instance where the theorem carries
hypotheses). -/

/-- Claim C7: for every courier id and payload, `sendOrderToRider` looks up
the current connection handle; when present it pushes the payload to exactly
that connection and returns `true`; when the courier is not connected it
returns `false` with no emission, no retry and no queuing — the model is a
total function, so a delivery miss is always a boolean result and never a
thrown error. -/
theorem C7_sendToCourier_boolean_miss {α : Type} (st : Dispatch.GatewayState)
    (riderId : Nat) (order : α) :
    (∀ sid, st.riderSockets riderId = some sid →
      Dispatch.sendOrderToRider st riderId order =
        (true, [⟨sid, "newOrder", Dispatch.WsData.newOrder order⟩])) ∧
    (st.riderSockets riderId = none →
      Dispatch.sendOrderToRider st riderId order = (false, [])) := by
  refine ⟨fun sid h => ?_, fun h => ?_⟩
  · simp [Dispatch.sendOrderToRider, h]
  · simp [Dispatch.sendOrderToRider, h]

/-- Witness for C7: in a registry mapping courier 42 to socket `sockB`,
delivery to courier 42 succeeds onto `sockB` and delivery to the unregistered
courier 7 reports `false` without emitting. -/
theorem C7_witness :
    Dispatch.sendOrderToRider
      (⟨fun k => if k = 42 then some "sockB" else none, ["d1"]⟩ : Dispatch.GatewayState)
      42 "payload" = (true, [⟨"sockB", "newOrder", Dispatch.WsData.newOrder "payload"⟩]) ∧
    Dispatch.sendOrderToRider
      (⟨fun k => if k = 42 then some "sockB" else none, ["d1"]⟩ : Dispatch.GatewayState)
      7 "payload" = (false, []) := by
  refine ⟨(C7_sendToCourier_boolean_miss _ 42 "payload").1 "sockB" (by simp), ?_⟩
  exact (C7_sendToCourier_boolean_miss _ 7 "payload").2 (by simp)

/-- Claim C6: registering courier `riderId` with connection `A` and then with
connection `B` leaves the registry mapping the id to `B`; `sendOrderToRider`
then delivers to `B` only; a subsequent `handleUnregisterRider` coming from
`A` is a complete no-op (state unchanged, nothing emitted) because the stored
handle `B` differs from `A`. -/
theorem C6_registry_last_writer_wins {α : Type} (st : Dispatch.GatewayState)
    (riderId : Nat) (A B : String) (order : α) (hAB : A ≠ B) :
    ((Dispatch.handleRegisterRider (α := α)
        (Dispatch.handleRegisterRider (α := α) st riderId A).1 riderId B).1.riderSockets
      riderId = some B) ∧
    Dispatch.sendOrderToRider
      (Dispatch.handleRegisterRider (α := α)
        (Dispatch.handleRegisterRider (α := α) st riderId A).1 riderId B).1 riderId order =
      (true, [⟨B, "newOrder", Dispatch.WsData.newOrder order⟩]) ∧
    Dispatch.handleUnregisterRider (α := α)
      (Dispatch.handleRegisterRider (α := α)
        (Dispatch.handleRegisterRider (α := α) st riderId A).1 riderId B).1 riderId A =
      ((Dispatch.handleRegisterRider (α := α)
        (Dispatch.handleRegisterRider (α := α) st riderId A).1 riderId B).1, []) := by
  have hmap : (Dispatch.handleRegisterRider (α := α)
      (Dispatch.handleRegisterRider (α := α) st riderId A).1 riderId B).1.riderSockets
      riderId = some B := by
    simp [Dispatch.handleRegisterRider]
  refine ⟨hmap, ?_, ?_⟩
  · simp [Dispatch.sendOrderToRider, hmap]
  · have hne : ¬((Dispatch.handleRegisterRider (α := α)
        (Dispatch.handleRegisterRider (α := α) st riderId A).1 riderId B).1.riderSockets
        riderId = some A) := by
      rw [hmap]
      simp only [Option.some.injEq]
      exact fun h => hAB h.symm
    simp [Dispatch.handleUnregisterRider, hne]

/-- Witness for C6 at a concrete registry: courier 42 registered first by
socket `A1`, then by socket `B2`. -/
theorem C6_witness :
    ((Dispatch.handleRegisterRider (α := Unit)
        (Dispatch.handleRegisterRider (α := Unit)
          (⟨fun _ => none, []⟩ : Dispatch.GatewayState) 42 "A1").1 42 "B2").1.riderSockets
      42 = some "B2") ∧
    Dispatch.sendOrderToRider
      (Dispatch.handleRegisterRider (α := Unit)
        (Dispatch.handleRegisterRider (α := Unit)
          (⟨fun _ => none, []⟩ : Dispatch.GatewayState) 42 "A1").1 42 "B2").1 42 () =
      (true, [⟨"B2", "newOrder", Dispatch.WsData.newOrder ()⟩]) ∧
    Dispatch.handleUnregisterRider (α := Unit)
      (Dispatch.handleRegisterRider (α := Unit)
        (Dispatch.handleRegisterRider (α := Unit)
          (⟨fun _ => none, []⟩ : Dispatch.GatewayState) 42 "A1").1 42 "B2").1 42 "A1" =
      ((Dispatch.handleRegisterRider (α := Unit)
        (Dispatch.handleRegisterRider (α := Unit)
          (⟨fun _ => none, []⟩ : Dispatch.GatewayState) 42 "A1").1 42 "B2").1, []) :=
  C6_registry_last_writer_wins _ 42 "A1" "B2" () (by decide)

/-- Claim C9: each of the three client-reported order events is forwarded to
the dispatcher set exactly when the registry maps the claimed rider id to the
sending socket; otherwise the message is silently dropped (no broadcast, no
error back to the sender). -/
theorem C9_order_action_guard {α : Type} (st : Dispatch.GatewayState)
    (orderId riderId : Nat) (reason : Option String) (sender : String) :
    (st.riderSockets riderId = some sender →
      Dispatch.handleOrderAccepted (α := α) st orderId riderId sender =
        st.dispatchSockets.map
          (fun sid => ⟨sid, "orderAccepted", Dispatch.WsData.orderAccepted orderId riderId⟩) ∧
      Dispatch.handleOrderRejected (α := α) st orderId riderId reason sender =
        st.dispatchSockets.map
          (fun sid => ⟨sid, "orderRejected", Dispatch.WsData.orderRejected orderId riderId reason⟩) ∧
      Dispatch.handleOrderDelivered (α := α) st orderId riderId sender =
        st.dispatchSockets.map
          (fun sid => ⟨sid, "orderDelivered", Dispatch.WsData.orderDelivered orderId riderId⟩)) ∧
    (st.riderSockets riderId ≠ some sender →
      Dispatch.handleOrderAccepted (α := α) st orderId riderId sender = [] ∧
      Dispatch.handleOrderRejected (α := α) st orderId riderId reason sender = [] ∧
      Dispatch.handleOrderDelivered (α := α) st orderId riderId sender = []) := by
  refine ⟨fun h => ?_, fun h => ?_⟩ <;>
    simp [Dispatch.handleOrderAccepted, Dispatch.handleOrderRejected,
      Dispatch.handleOrderDelivered, Dispatch.broadcastToDispatchers, h]

/-- Witness for C9: with courier 5 registered to socket `S`, an
`orderAccepted` from `S` reaches both dispatcher sockets while the same
message from impostor socket `X` is dropped. -/
theorem C9_witness :
    Dispatch.handleOrderAccepted (α := Unit)
      (⟨fun k => if k = 5 then some "S" else none, ["d1", "d2"]⟩ : Dispatch.GatewayState)
      9 5 "S" =
      [⟨"d1", "orderAccepted", Dispatch.WsData.orderAccepted 9 5⟩,
       ⟨"d2", "orderAccepted", Dispatch.WsData.orderAccepted 9 5⟩] ∧
    Dispatch.handleOrderAccepted (α := Unit)
      (⟨fun k => if k = 5 then some "S" else none, ["d1", "d2"]⟩ : Dispatch.GatewayState)
      9 5 "X" = [] := by
  refine ⟨((C9_order_action_guard _ 9 5 none "S").1 (by simp)).1, ?_⟩
  exact ((C9_order_action_guard _ 9 5 none "X").2 (by simp)).1

/-- Claim C3: on a handler throw the consumer reads and increments the
`x-retry-count` header; while the incremented count stays within 3 it
schedules a re-publish of the same body to the same routing key with the new
header after `2^retryCount * 1000` ms and acks the original delivery; beyond
3 it rejects without requeue, which the broker routes to the bound
dead-letter queue.  End to end (on the `order.created` queue, whose binding
key `ordercreated` routes every re-publish back to the same queue): a handler
failing on attempts 1 and 2 and succeeding on attempt 3 produces exactly one
successful ack and no dead-letter entry; a handler failing on attempts 1-4
produces a message on `order.created.dead` and no successful ack. -/
theorem C3_retry_and_dead_letter (m : MQ.Msg) (content : String) :
    (MQ.consumeOne false m = MQ.ConsumeAction.ackOnly) ∧
    (m.retryHeader + 1 ≤ 3 →
      MQ.consumeOne true m =
        MQ.ConsumeAction.republishThenAck (2 ^ (m.retryHeader + 1) * 1000)
          "delivery_events" m.routingKey m.content (m.retryHeader + 1)) ∧
    (3 < m.retryHeader + 1 →
      MQ.consumeOne true m = MQ.ConsumeAction.rejectNoRequeue) ∧
    (MQ.routesTo MQ.setupQueuesBindings "delivery_events" "ordercreated" =
      ["order.created"]) ∧
    (MQ.runDeliveries (fun n => n ≤ 2) "order.created" content "ordercreated" 0 =
      { successAcks := 1, retryAcks := 2, republishDelays := [2000, 4000],
        deadLettered := [] }) ∧
    (MQ.runDeliveries (fun _ => true) "order.created" content "ordercreated" 0 =
      { successAcks := 0, retryAcks := 3, republishDelays := [2000, 4000, 8000],
        deadLettered := [("order.created.dead", ⟨content, 3, "ordercreated"⟩)] }) := by
  refine ⟨rfl, fun h => ?_, fun h => ?_, by decide, ?_, ?_⟩
  · simp [MQ.consumeOne, h]
  · simp [MQ.consumeOne, Nat.not_le.mpr h]
  · rw [MQ.runDeliveries, MQ.runDeliveries, MQ.runDeliveries]
    norm_num
  · rw [MQ.runDeliveries, MQ.runDeliveries, MQ.runDeliveries, MQ.runDeliveries]
    have hd : MQ.deadLetterTarget "order.created" = some "order.created.dead" := by decide
    norm_num [hd]

/-- Witness for C3: a first delivery (header 0) of a failing handler is
re-published with header 1 after 2000 ms; a fourth delivery (header 3) is
rejected without requeue. -/
theorem C3_witness :
    MQ.consumeOne true ⟨"body", 0, "ordercreated"⟩ =
      MQ.ConsumeAction.republishThenAck 2000 "delivery_events" "ordercreated" "body" 1 ∧
    MQ.consumeOne true ⟨"body", 3, "ordercreated"⟩ =
      MQ.ConsumeAction.rejectNoRequeue := by
  constructor
  · have h := (C3_retry_and_dead_letter ⟨"body", 0, "ordercreated"⟩ "x").2.1 (by decide)
    simpa using h
  · exact (C3_retry_and_dead_letter ⟨"body", 3, "ordercreated"⟩ "x").2.2.1 (by decide)

/-- Counterexample for C5: `setupQueues` binds the primary queue
`order.created` on `delivery_events` with routing key `ordercreated` — the
lowercased camelCase config key — and no binding uses the event type
`order.created` itself; a message published under routing key `order.created`
would be routed nowhere. -/
theorem C5_counterexample :
    (MQ.setupQueuesBindings.head? =
      some ⟨"order.created", "delivery_events", "ordercreated"⟩) ∧
    ((⟨"order.created", "delivery_events", "order.created"⟩ : MQ.Binding) ∉
      MQ.setupQueuesBindings) ∧
    MQ.routesTo MQ.setupQueuesBindings "delivery_events" "order.created" = [] := by
  decide

/-- Claim C5 (amended): each event-type queue is durable and bound on the
topic exchange `delivery_events` with the lowercased camelCase config key as
routing key (`ordercreated`, `orderupdated`, `orderassigned`,
`riderlocation`); every publish lowercases the same camelCase key, so each
published event is still routed exactly to its matching event-type queue;
each primary queue dead-letters to the direct exchange `delivery_events_dlx`
with routing key `<queueName>.dead`, and each `*.dead` queue is bound there
by its own name, so rejected messages reach the matching dead-letter
queue. -/
theorem C5_amended_topology :
    MQ.setupQueuesBindings = [
      ⟨"order.created", "delivery_events", "ordercreated"⟩,
      ⟨"order.updated", "delivery_events", "orderupdated"⟩,
      ⟨"order.assigned", "delivery_events", "orderassigned"⟩,
      ⟨"rider.location", "delivery_events", "riderlocation"⟩,
      ⟨"order.created.dead", "delivery_events_dlx", "order.created.dead"⟩,
      ⟨"order.updated.dead", "delivery_events_dlx", "order.updated.dead"⟩,
      ⟨"order.assigned.dead", "delivery_events_dlx", "order.assigned.dead"⟩,
      ⟨"rider.location.dead", "delivery_events_dlx", "rider.location.dead"⟩] ∧
    MQ.routesTo MQ.setupQueuesBindings "delivery_events"
      (MQ.publishRoutingKey "orderCreated") = ["order.created"] ∧
    MQ.routesTo MQ.setupQueuesBindings "delivery_events"
      (MQ.publishRoutingKey "orderUpdated") = ["order.updated"] ∧
    MQ.routesTo MQ.setupQueuesBindings "delivery_events"
      (MQ.publishRoutingKey "orderAssigned") = ["order.assigned"] ∧
    MQ.routesTo MQ.setupQueuesBindings "delivery_events"
      (MQ.publishRoutingKey "riderLocation") = ["rider.location"] ∧
    MQ.deadLetterTarget "order.created" = some "order.created.dead" ∧
    MQ.deadLetterTarget "order.updated" = some "order.updated.dead" ∧
    MQ.deadLetterTarget "order.assigned" = some "order.assigned.dead" ∧
    MQ.deadLetterTarget "rider.location" = some "rider.location.dead" ∧
    MQ.queues.all (fun c => c.options.durable) = true := by
  decide

/-- Claim C4: for every rider set and query point, `findNearbyAvailableRiders`
(default radius 5 km) returns exactly the riders with `is_available = true`
and non-null position whose spherical-law-of-cosines distance (Earth radius
6371 km) from the query point is strictly below the radius, each paired with
that distance, sorted ascending by distance; a rider at distance exactly the
radius is excluded, and zero matching riders yield `[]`, not an error. -/
theorem C4_findNearby (riders : List Geo.RiderRow) (lat lng radiusKm : ℚ) :
    (∀ (r : Geo.RiderRow) (d : ℝ),
      (r, d) ∈ Geo.findNearbyCore riders lat lng radiusKm ↔
        (r ∈ riders ∧ r.is_available = true ∧
          ∃ a b : ℚ, r.current_latitude = some a ∧ r.current_longitude = some b ∧
            d = Geo.sphericalDistanceKm lat lng a b ∧ d < (radiusKm : ℝ))) ∧
    List.Sorted (fun p q : Geo.RiderRow × ℝ => p.2 ≤ q.2)
      (Geo.findNearbyCore riders lat lng radiusKm) ∧
    (∀ r : Geo.RiderRow, (r, (radiusKm : ℝ)) ∉ Geo.findNearbyCore riders lat lng radiusKm) ∧
    (Geo.findNearbyAvailableRiders riders (JsNum.finite lat) (JsNum.finite lng) =
      .ok (Geo.findNearbyCore riders lat lng 5)) ∧
    (Geo.findNearbyCore [] lat lng radiusKm = []) := by
  classical
  have hmem : ∀ (r : Geo.RiderRow) (d : ℝ),
      (r, d) ∈ Geo.findNearbyCore riders lat lng radiusKm ↔
        (r ∈ riders ∧ r.is_available = true ∧
          ∃ a b : ℚ, r.current_latitude = some a ∧ r.current_longitude = some b ∧
            d = Geo.sphericalDistanceKm lat lng a b ∧ d < (radiusKm : ℝ)) := by
    intro r d
    unfold Geo.findNearbyCore
    rw [List.Perm.mem_iff (List.perm_insertionSort _ _), List.mem_filter,
      List.mem_filterMap]
    constructor
    · rintro ⟨⟨a, ha, hf⟩, hlt⟩
      rw [decide_eq_true_eq] at hlt
      rcases a with ⟨aid, avail, clat, clng, aupd⟩
      cases avail
      · simp at hf
      · cases clat with
        | none => simp at hf
        | some la =>
          cases clng with
          | none => simp at hf
          | some lb =>
            simp only [Option.some.injEq, Prod.mk.injEq] at hf
            obtain ⟨hr, hd⟩ := hf
            subst hr
            subst hd
            exact ⟨ha, rfl, la, lb, rfl, rfl, rfl, hlt⟩
    · rintro ⟨hmem', havail, a, b, hlat, hlng, hd, hlt⟩
      refine ⟨⟨r, hmem', ?_⟩, by rwa [decide_eq_true_eq]⟩
      rw [havail, hlat, hlng]
      simp [hd]
  refine ⟨hmem, ?_, ?_, rfl, rfl⟩
  · exact List.sorted_insertionSort _ _
  · intro r hr
    obtain ⟨-, -, a, b, -, -, hd, hlt⟩ := (hmem r (radiusKm : ℝ)).mp hr
    exact lt_irrefl _ hlt

/-- Witness for C4: a single available rider at `(0, 0)` queried from `(0, 0)`
with radius 5 is returned, paired with distance 0 (6371 * arccos 1). -/
theorem C4_witness :
    ((⟨1, true, some 0, some 0, 0⟩ : Geo.RiderRow), (0 : ℝ)) ∈
      Geo.findNearbyCore [⟨1, true, some 0, some 0, 0⟩] 0 0 5 := by
  have hdist : Geo.sphericalDistanceKm 0 0 0 0 = 0 := by
    simp [Geo.sphericalDistanceKm, Geo.radians, Real.arccos_one]
  refine ((C4_findNearby [⟨1, true, some 0, some 0, 0⟩] 0 0 5).1 _ 0).mpr
    ⟨by simp, rfl, 0, 0, rfl, rfl, hdist.symm, by norm_num⟩

/-- Claim C8: `updateLocation` publishes the rider-location event inside the
same transaction that writes the position.  When the rider is missing, the
`NotFoundException` propagates and nothing changes; when the publish throws
(broker down, or a channel refusing the write), the transaction rolls back —
the committed rider rows keep their old position and `updated_at` — while
the error propagates; the position update commits exactly when the publish
succeeds, together with the enqueued `riderlocation` message. -/
theorem C8_updateLocation_atomic (db : Orders.DB) (bk : Orders.Broker)
    (riderId : Nat) (lat lng : ℚ) (now : Nat) :
    (db.riders.countP (fun r => r.id == riderId) = 0 →
      Orders.updateLocation db bk riderId lat lng now =
        { result := .error (.notFoundException
            ("Rider with ID " ++ toString riderId ++ " not found")),
          db := db, broker := bk, effects := [] }) ∧
    (db.riders.countP (fun r => r.id == riderId) ≠ 0 → bk.isConnected = false →
      Orders.updateLocation db bk riderId lat lng now =
        { result := .error (.jsError "RabbitMQ connection not available"),
          db := db, broker := bk, effects := [] }) ∧
    (db.riders.countP (fun r => r.id == riderId) ≠ 0 → bk.isConnected = true →
      bk.channelWritable = true →
      Orders.updateLocation db bk riderId lat lng now =
        { result := .ok (),
          db := { db with riders := db.riders.map (fun r =>
            if r.id == riderId then
              { r with current_latitude := some lat, current_longitude := some lng,
                       updated_at := now }
            else r) },
          broker := { bk with published := bk.published ++
            [("riderlocation", Orders.Payload.riderLocation riderId lat lng now)] },
          effects := [] }) ∧
    (∀ e, (Orders.updateLocation db bk riderId lat lng now).result = .error e →
      (Orders.updateLocation db bk riderId lat lng now).db = db) := by
  have hkey : MQ.publishRoutingKey "riderLocation" = "riderlocation" := by decide
  refine ⟨fun h0 => ?_, fun h0 hconn => ?_, fun h0 hconn hwrit => ?_, fun e => ?_⟩
  · simp [Orders.updateLocation, h0]
  · have hb : (db.riders.countP (fun r => r.id == riderId) == 0) = false := by
      simpa using h0
    simp [Orders.updateLocation, Orders.publishRiderLocation, Orders.publishMessage,
      hb, hconn]
  · have hb : (db.riders.countP (fun r => r.id == riderId) == 0) = false := by
      simpa using h0
    simp [Orders.updateLocation, Orders.publishRiderLocation, Orders.publishMessage,
      hb, hconn, hwrit, hkey]
  · intro herr
    by_cases h0 : db.riders.countP (fun r => r.id == riderId) = 0
    · simp [Orders.updateLocation, h0]
    · have hb : (db.riders.countP (fun r => r.id == riderId) == 0) = false := by
        simpa using h0
      by_cases hconn : bk.isConnected
      · by_cases hwrit : bk.channelWritable
        · exfalso
          simp [Orders.updateLocation, Orders.publishRiderLocation,
            Orders.publishMessage, hb, hconn, hwrit] at herr
        · simp [Orders.updateLocation, Orders.publishRiderLocation,
            Orders.publishMessage, hb, hconn, hwrit]
      · simp only [Bool.not_eq_true] at hconn
        simp [Orders.updateLocation, Orders.publishRiderLocation,
          Orders.publishMessage, hb, hconn]

/-- Witness for C8: rider 7 exists with no position, the broker is up; the
call commits position `(1, 2)` at tick 5 and enqueues the location message.
The same rider with the broker down leaves the row unchanged. -/
theorem C8_witness :
    Orders.updateLocation
      ⟨[], [], [], [], [], [⟨7, true, none, none, 0⟩], 1, 1, 1⟩
      ⟨true, true, []⟩ 7 1 2 5 =
      { result := .ok (),
        db := ⟨[], [], [], [], [], [⟨7, true, some 1, some 2, 5⟩], 1, 1, 1⟩,
        broker := ⟨true, true, [("riderlocation", Orders.Payload.riderLocation 7 1 2 5)]⟩,
        effects := [] } ∧
    Orders.updateLocation
      ⟨[], [], [], [], [], [⟨7, true, none, none, 0⟩], 1, 1, 1⟩
      ⟨false, true, []⟩ 7 1 2 5 =
      { result := .error (.jsError "RabbitMQ connection not available"),
        db := ⟨[], [], [], [], [], [⟨7, true, none, none, 0⟩], 1, 1, 1⟩,
        broker := ⟨false, true, []⟩, effects := [] } := by
  constructor
  · rw [(C8_updateLocation_atomic
      ⟨[], [], [], [], [], [⟨7, true, none, none, 0⟩], 1, 1, 1⟩
      ⟨true, true, []⟩ 7 1 2 5).2.2.1 (by decide) rfl rfl]
    rfl
  · rw [(C8_updateLocation_atomic
      ⟨[], [], [], [], [], [⟨7, true, none, none, 0⟩], 1, 1, 1⟩
      ⟨false, true, []⟩ 7 1 2 5).2.1 (by decide) rfl]

/-- Claim C1 (code bug): on a database holding exactly one existing,
unassigned order (id 1, `rider_id` NULL), `assignRider(1, 7)` with a healthy
broker does NOT commit the assignment and does not return the updated order:
the guarded update and the audit-log insert happen on the open transaction,
but the pre-publish re-read calls `getOrderById(orderId)` without `trx`, runs
on the pool connection and sees the committed row with `rider_id` still NULL,
so `publishOrderAssigned` throws `Cannot publish order assignment: no rider
assigned`, the transaction rolls back and the call rejects with that error —
the database is left unchanged and nothing is published.  The `NotFound` and
`Conflict` halves of the claim do behave as stated: a missing order id
rejects with `NotFoundException`, and an already-assigned order rejects with
`Order already has an assigned rider` leaving the previously assigned rider
(id 3) in place. -/
theorem C1_assignRider_never_commits :
    Orders.assignRider
      ⟨[], [⟨1, "u1", 1, 1, false, "OD-100-1", none, false, 0, 0⟩], [], [], [], [], 1, 2, 1⟩
      ⟨true, true, []⟩ 1 7 9 =
      { result := .error (.jsError "Cannot publish order assignment: no rider assigned"),
        db := ⟨[], [⟨1, "u1", 1, 1, false, "OD-100-1", none, false, 0, 0⟩],
          [], [], [], [], 1, 2, 1⟩,
        broker := ⟨true, true, []⟩, effects := [] } ∧
    Orders.assignRider
      ⟨[], [⟨1, "u1", 1, 1, false, "OD-100-1", none, false, 0, 0⟩], [], [], [], [], 1, 2, 1⟩
      ⟨true, true, []⟩ 2 7 9 =
      { result := .error (.notFoundException "Order with ID 2 not found"),
        db := ⟨[], [⟨1, "u1", 1, 1, false, "OD-100-1", none, false, 0, 0⟩],
          [], [], [], [], 1, 2, 1⟩,
        broker := ⟨true, true, []⟩, effects := [] } ∧
    Orders.assignRider
      ⟨[], [⟨1, "u1", 1, 1, false, "OD-100-1", some 3, true, 0, 0⟩], [], [], [], [], 1, 2, 1⟩
      ⟨true, true, []⟩ 1 7 9 =
      { result := .error (.jsError "Order already has an assigned rider"),
        db := ⟨[], [⟨1, "u1", 1, 1, false, "OD-100-1", some 3, true, 0, 0⟩],
          [], [], [], [], 1, 2, 1⟩,
        broker := ⟨true, true, []⟩, effects := [] } :=
  ⟨rfl, rfl, rfl⟩

/-- Counterexample for C2: with the broker connection down, `createOrder` on
an empty store at valid coordinates `(40, -73)` surfaces the connectivity
error, but the "database commit for the order is unaffected / rows remain
persisted" half of the claim is false: the publish happens INSIDE the
order-creation transaction, which therefore rolls back, leaving no
calculated-order, order, log or amount-history row behind (the nearby-rider
query, also inside the transaction, had already run). -/
theorem C2_counterexample :
    Orders.createOrder ⟨[], [], [], [], [], [], 1, 1, 1⟩ ⟨false, true, []⟩
      ⟨"u1", "1", ⟨JsNum.finite 25, JsNum.finite 5, JsNum.finite 2,
        ⟨"New York", "John Doe", "123 Main St", "Apt 4B"⟩,
        JsNum.finite 40, JsNum.finite (-73), false, JsNum.finite 20⟩, false⟩
      1000 1 =
      { result := .error (.jsError "RabbitMQ connection not available"),
        db := ⟨[], [], [], [], [], [], 1, 1, 1⟩,
        broker := ⟨false, true, []⟩,
        effects := [Orders.Effect.searchNearby (JsNum.finite 40) (JsNum.finite (-73))] } :=
  rfl

/-- Claim C2 (amended): when publishing `order.created` fails because the
broker connection is down, `createOrder` surfaces the connectivity error to
the caller, but the database commit is NOT unaffected: because the publish
(and the nearby-courier notification block) runs inside the order-creation
transaction, the failure rolls the whole transaction back — the order row,
pricing snapshot, initial log and amount-history entries are all discarded —
and the broker state is untouched.  Stated on an empty store for every DTO
with finite coordinates and every clock/random draw. -/
theorem C2_amended_rollback (dto : Orders.CreateOrderDto) (a b : ℚ)
    (now rand : Nat) (w : Bool) (pub : List (String × Orders.Payload))
    (hlat : dto.calculated_order.lat = JsNum.finite a)
    (hlng : dto.calculated_order.lng = JsNum.finite b) :
    Orders.createOrder ⟨[], [], [], [], [], [], 1, 1, 1⟩ ⟨false, w, pub⟩ dto now rand =
      { result := .error (.jsError "RabbitMQ connection not available"),
        db := ⟨[], [], [], [], [], [], 1, 1, 1⟩,
        broker := ⟨false, w, pub⟩,
        effects := [Orders.Effect.searchNearby (JsNum.finite a) (JsNum.finite b)] } := by
  cases hp : Orders.parseIntOpt dto.order_type_id with
  | none =>
    simp [Orders.createOrder, Orders.getOrCreateDefaultOrderType, hp, hlat, hlng,
      JsNum.isNaN, Geo.findNearbyAvailableRiders, Geo.findNearbyCore,
      Orders.getOrderById, Orders.orderByTimeAsc, Orders.finishCreate,
      Orders.publishOrderCreated, Orders.publishMessage, List.find?]
  | some n =>
    simp [Orders.createOrder, Orders.getOrCreateDefaultOrderType, hp, hlat, hlng,
      JsNum.isNaN, Geo.findNearbyAvailableRiders, Geo.findNearbyCore,
      Orders.getOrderById, Orders.orderByTimeAsc, Orders.finishCreate,
      Orders.publishOrderCreated, Orders.publishMessage, List.find?]

/-- Witness for C2 (amended) at a concrete DTO. -/
theorem C2_amended_witness :
    Orders.createOrder ⟨[], [], [], [], [], [], 1, 1, 1⟩ ⟨false, false, []⟩
      ⟨"u2", "x", ⟨JsNum.finite 10, JsNum.finite 1, JsNum.finite 1,
        ⟨"A", "B", "C", "D"⟩, JsNum.finite 7, JsNum.finite 8, true, JsNum.finite 9⟩,
        true⟩ 5 6 =
      { result := .error (.jsError "RabbitMQ connection not available"),
        db := ⟨[], [], [], [], [], [], 1, 1, 1⟩,
        broker := ⟨false, false, []⟩,
        effects := [Orders.Effect.searchNearby (JsNum.finite 7) (JsNum.finite 8)] } :=
  C2_amended_rollback _ 7 8 5 6 false [] rfl rfl

/-- Counterexample for C10: `lat = Infinity` does not parse as a finite
number, yet `isNaN(Infinity)` is false, so the guard does NOT skip the
nearby-rider block: the search runs (the `searchNearby` effect fires), and
with an available positioned rider in the store the distance expression
raises the Postgres out-of-range error inside the transaction, so the order
is NOT created at all — the claim promised a fully created order with only
the search and notifications skipped. -/
theorem C10_counterexample :
    Orders.createOrder ⟨[], [], [], [], [], [⟨9, true, some 0, some 0, 0⟩], 1, 1, 1⟩
      ⟨true, true, []⟩
      ⟨"u1", "1", ⟨JsNum.finite 25, JsNum.finite 5, JsNum.finite 2,
        ⟨"New York", "John Doe", "123 Main St", "Apt 4B"⟩,
        JsNum.posInf, JsNum.finite (-73), false, JsNum.finite 20⟩, false⟩
      1000 1 =
      { result := .error (.sqlError Geo.SqlError.inputOutOfRange),
        db := ⟨[], [], [], [], [], [⟨9, true, some 0, some 0, 0⟩], 1, 1, 1⟩,
        broker := ⟨true, true, []⟩,
        effects := [Orders.Effect.searchNearby JsNum.posInf (JsNum.finite (-73))] } :=
  rfl

/-- Claim C10 (amended): for every `createOrder` input whose
`calculated_order.lat` or `lng` is NaN (`Number(x)` is NaN — the actual
guard; non-finite but non-NaN values such as Infinity pass it), the order is
still created in full — pricing snapshot, order row, initial
`Order received` log and amount-history entry are committed and
`order.created` is still published — while the nearby-courier search and the
per-courier notifications are skipped.  Stated on an empty store (arbitrary
rider table) with a healthy broker. -/
theorem C10_amended_nan_skips (dto : Orders.CreateOrderDto) (now rand : Nat)
    (pub : List (String × Orders.Payload)) (riders : List Geo.RiderRow)
    (hnan : dto.calculated_order.lat.isNaN = true ∨
      dto.calculated_order.lng.isNaN = true) :
    Orders.createOrder ⟨[], [], [], [], [], riders, 1, 1, 1⟩ ⟨true, true, pub⟩
      dto now rand =
      { result := .ok 1,
        db := ⟨
          [⟨1, dto.calculated_order.total_amount, dto.calculated_order.free_delivery,
            dto.calculated_order.delivery_fee, dto.calculated_order.service_charge,
            dto.calculated_order.amount, dto.calculated_order.lat,
            dto.calculated_order.lng, dto.calculated_order.address_details,
            dto.user_id, now, now⟩],
          [⟨1, dto.user_id, 1, 1, dto.scheduled,
            "OD-" ++ toString now ++ "-" ++ toString (rand % 1000),
            none, false, now, now⟩],
          [⟨1, "Order received", now⟩],
          [⟨1, dto.calculated_order.total_amount, now⟩],
          [⟨1, "Standard Delivery"⟩],
          riders, 2, 2, 2⟩,
        broker := ⟨true, true,
          pub ++ [("ordercreated", Orders.Payload.orderCreated
            { order := ⟨1, dto.user_id, 1, 1, dto.scheduled,
                "OD-" ++ toString now ++ "-" ++ toString (rand % 1000),
                none, false, now, now⟩,
              calculated_order := ⟨some dto.calculated_order.total_amount,
                some dto.calculated_order.delivery_fee,
                some dto.calculated_order.service_charge,
                some dto.calculated_order.address_details,
                some dto.calculated_order.lat, some dto.calculated_order.lng⟩,
              order_type_name := some "Standard Delivery",
              logs := [⟨1, "Order received", now⟩],
              order_total_amount_history :=
                [⟨1, dto.calculated_order.total_amount, now⟩] } now)]⟩,
        effects := [] } := by
  rcases hnan with h | h <;>
  · cases hp : Orders.parseIntOpt dto.order_type_id <;>
    · simp [Orders.createOrder, Orders.getOrCreateDefaultOrderType, hp, h,
        Orders.getOrderById, Orders.orderByTimeAsc, Orders.finishCreate,
        Orders.publishOrderCreated, Orders.publishMessage, List.find?,
        MQ.publishRoutingKey, MQ.lowerCase]

/-- Witness for C10 (amended): a DTO whose `lat` is NaN commits the full
order (snapshot, row, log, history), publishes `order.created`, and fires no
search or notification effect even though an available rider is present. -/
theorem C10_amended_witness :
    Orders.createOrder ⟨[], [], [], [], [], [⟨9, true, some 0, some 0, 0⟩], 1, 1, 1⟩
      ⟨true, true, []⟩
      ⟨"u3", "2", ⟨JsNum.finite 10, JsNum.finite 1, JsNum.finite 1,
        ⟨"A", "B", "C", "D"⟩, JsNum.nan, JsNum.finite 8, false, JsNum.finite 9⟩,
        false⟩ 3 4 =
      { result := .ok 1,
        db := ⟨
          [⟨1, JsNum.finite 10, false, JsNum.finite 1, JsNum.finite 1,
            JsNum.finite 9, JsNum.nan, JsNum.finite 8, ⟨"A", "B", "C", "D"⟩,
            "u3", 3, 3⟩],
          [⟨1, "u3", 1, 1, false,
            "OD-" ++ toString 3 ++ "-" ++ toString (4 % 1000), none, false, 3, 3⟩],
          [⟨1, "Order received", 3⟩],
          [⟨1, JsNum.finite 10, 3⟩],
          [⟨1, "Standard Delivery"⟩],
          [⟨9, true, some 0, some 0, 0⟩], 2, 2, 2⟩,
        broker := ⟨true, true,
          [("ordercreated", Orders.Payload.orderCreated
            { order := ⟨1, "u3", 1, 1, false,
                "OD-" ++ toString 3 ++ "-" ++ toString (4 % 1000),
                none, false, 3, 3⟩,
              calculated_order := ⟨some (JsNum.finite 10), some (JsNum.finite 1),
                some (JsNum.finite 1), some ⟨"A", "B", "C", "D"⟩,
                some JsNum.nan, some (JsNum.finite 8)⟩,
              order_type_name := some "Standard Delivery",
              logs := [⟨1, "Order received", 3⟩],
              order_total_amount_history := [⟨1, JsNum.finite 10, 3⟩] } 3)]⟩,
        effects := [] } := by
  have h := C10_amended_nan_skips
    ⟨"u3", "2", ⟨JsNum.finite 10, JsNum.finite 1, JsNum.finite 1,
      ⟨"A", "B", "C", "D"⟩, JsNum.nan, JsNum.finite 8, false, JsNum.finite 9⟩,
      false⟩ 3 4 [] [⟨9, true, some 0, some 0, 0⟩] (Or.inl rfl)
  simpa using h
